import Mathlib

/-!
# Verification of the federated executor lifecycle and preprocessing contracts

Shallow embedding of the FancyXun/federated repository snapshot.  The three
source files are a federated-sum script (`test_tff.py`), a server deployment
entrypoint (`server.py`) and the CIFAR-100 preprocessing test file
(`cifar100_prediction_test.py`).  The executor stack and the preprocessing
implementation themselves are not part of the snapshot, so those parts are
modelled from the specification document, as marked in each doc comment.
-/

namespace Federated

/-! ## Federated values and the clients placement (modelled from the spec) -/

/-- Modelled from the spec: a federated value tagged with an "all-equal" flag
(`tensorflow_federated`'s internal representation is not in the snapshot).
A non-all-equal clients value carries one int32 payload per logical client;
int32 payloads are embedded as `Int` and wrapped to 32 bits where arithmetic
occurs. -/
structure FederatedClientsValue where
  allEqual : Bool
  payload : List Int
deriving DecidableEq, Repr

/-- Modelled from the spec's error taxonomy (§7): the execution errors the
placement resolver and the executor factory can raise. -/
inductive ExecError where
  | cardinalityMismatch (expected actual : Nat)
  | invalidCardinality (placement : String)
deriving DecidableEq, Repr

/-- Modelled from the spec (§4.2 Placement Resolver): for a non-all-equal
"clients" value the payload length must equal the declared cardinality `n`
exactly; a mismatch fails with a `CardinalityMismatchError` carrying both the
expected and the actual counts.  An all-equal value is broadcast: one payload
value is replicated to the `n` leaves. -/
def resolveClientsPlacement (n : Nat) (v : FederatedClientsValue) :
    Except ExecError (List Int) :=
  if v.allEqual then
    match v.payload with
    | [x] => .ok (List.replicate n x)
    | _ => .error (.cardinalityMismatch 1 v.payload.length)
  else if v.payload.length = n then .ok v.payload
  else .error (.cardinalityMismatch n v.payload.length)

/-- Normalisation of a mathematical integer to the int32 range
`[-2^31, 2^31)`, i.e. two's-complement wrap-around. -/
def norm32 (x : Int) : Int := (x + 2 ^ 31) % 2 ^ 32 - 2 ^ 31

/-- int32 addition: add, then wrap to 32 bits. -/
def add32 (a b : Int) : Int := norm32 (a + b)

/-- Modelled from the spec (§4.2): the aggregation step of `federated_sum`
joins the per-leaf int32 results with int32 addition, starting from the
additive identity. -/
def federatedSumJoin (leaves : List Int) : Int := leaves.foldr add32 0

/-- Embedding of `fed_sum` from `src/test_tff.py`: a federated computation of
type `int32@CLIENTS -> int32@SERVER` applying `tff.federated_sum`.  Modelled
from the spec for the execution-context part that is not in the snapshot: the
script passes a bare Python list, so the effective clients cardinality is the
payload length (the spec's "N=0-effective" path for the empty list). -/
def fed_sum (payload : List Int) : Except ExecError Int :=
  (resolveClientsPlacement payload.length ⟨false, payload⟩).map federatedSumJoin

/-! ## Preprocessing factory configuration (modelled from the spec) -/

/-- Modelled from the spec (§7 `InvalidArgumentError`): configuration-time
errors of `create_preprocess_fn`, mirroring Python's `TypeError` and
`ValueError`. -/
inductive ConfigError where
  | typeError (msg : String)
  | valueError (msg : String)
deriving DecidableEq, Repr

/-- Modelled from the spec: the `crop_shape` argument of
`create_preprocess_fn` as a Python caller can pass it — either a bare
(non-iterable) scalar such as `32`, or an iterable of dimension sizes. -/
inductive CropShapeArg where
  | scalar (n : Int)
  | iterable (dims : List Nat)
deriving DecidableEq, Repr

/-- The message of the value error raised for a non-positive `num_epochs`
(matched by the test regex `num_epochs must be a positive integer`). -/
def numEpochsErrorMsg : String := "num_epochs must be a positive integer."

/-- The message of the type error raised for a non-iterable `crop_shape`
(matched by the test regex `crop_shape must be an iterable`). -/
def cropTypeErrorMsg : String := "The crop_shape must be an iterable."

/-- The message of the value error raised for an iterable `crop_shape` of the
wrong length (matched by the test regex `The crop_shape must have length 3`). -/
def cropLengthErrorMsg : String := "The crop_shape must have length 3."

/-- Modelled from the spec (§6): `crop_shape` must be an iterable of exactly
3 elements; a non-iterable argument is a type error and a wrong-length
iterable is a value error. -/
def validateCropShape : CropShapeArg → Except ConfigError (List Nat)
  | .scalar _ => .error (.typeError cropTypeErrorMsg)
  | .iterable dims =>
      if dims.length = 3 then .ok dims
      else .error (.valueError cropLengthErrorMsg)

/-- The validated configuration carried by the preprocessing function that
`create_preprocess_fn` returns. -/
structure PreprocessSpec where
  numEpochs : Nat
  batchSize : Nat
  shuffleBufferSize : Nat
  cropShape : List Nat
  distortImage : Bool
deriving DecidableEq, Repr

/-- Modelled from the spec (§6, §7):
`create_preprocess_fn(num_epochs, batch_size, shuffle_buffer_size,
crop_shape, distort_image)` validates its configuration synchronously and
fails fast — returning `Except.error` here — before any dataset resource is
built; on success it returns the validated configuration of the dataset
transformation. -/
def create_preprocess_fn (numEpochs : Int) (batchSize : Nat)
    (shuffleBufferSize : Nat) (cropShape : CropShapeArg) (distortImage : Bool) :
    Except ConfigError PreprocessSpec :=
  if numEpochs < 1 then .error (.valueError numEpochsErrorMsg)
  else
    match validateCropShape cropShape with
    | .error e => .error e
    | .ok dims => .ok ⟨numEpochs.toNat, batchSize, shuffleBufferSize, dims, distortImage⟩

/-- `n` epochs of a dataset: the dataset repeated `n` times. -/
def repeatList (n : Nat) (l : List α) : List α := (List.replicate n l).flatten

/-- Splits a list into consecutive chunks of size `bs` (the last chunk may be
shorter); `fuel` bounds the recursion and is instantiated with the list
length. -/
def batchListAux (fuel bs : Nat) (l : List α) : List (List α) :=
  match fuel, l with
  | 0, _ => []
  | _, [] => []
  | f + 1, x :: xs =>
      if bs = 0 then []
      else (x :: xs).take bs :: batchListAux f bs ((x :: xs).drop bs)

/-- `tf.data.Dataset.batch(bs)`: consecutive chunks of `bs` elements, the
final chunk possibly smaller. -/
def batchList (bs : Nat) (l : List α) : List (List α) := batchListAux l.length bs l

/-- Modelled from the spec (§6): applying the function returned by
`create_preprocess_fn` to a dataset — shuffle (a reorder, which does not
change the element count and is omitted from this counting model), repeat
`num_epochs` times, then split into batches of `batch_size`.  The per-element
image map preserves the number of batches and is modelled separately. -/
def applyPreprocess (p : PreprocessSpec) (ds : List α) : List (List α) :=
  batchList p.batchSize (repeatList p.numEpochs ds)

/-- Ceiling division on naturals: `ceilDiv a b = ⌈a / b⌉` for `b > 0`
(`ceilDiv_eq_ceil` below relates it to the rational ceiling). -/
def ceilDiv (a b : Nat) : Nat := (a + b - 1) / b

/-- Substring occurrence on lists: `containsSub sub l` is true when `sub`
occurs contiguously inside `l`. -/
def containsSub [DecidableEq α] : List α → List α → Bool
  | sub, [] => decide (sub = [])
  | sub, a :: t => sub.isPrefixOf (a :: t) || containsSub sub t

/-- `mentions msg phrase`: the error message `msg` contains `phrase` as a
substring (how the tests' `assertRaisesRegex` patterns match messages). -/
def mentions (msg phrase : String) : Prop := containsSub phrase.data msg.data = true

instance (msg phrase : String) : Decidable (mentions msg phrase) :=
  inferInstanceAs (Decidable (_ = true))

/-! ## The CIFAR-100 image map (modelled from the spec) -/

/-- Mean of a list of pixel values (pixels embedded as rationals, the exact
idealisation of the float32 arithmetic). -/
def listMean (l : List ℚ) : ℚ := l.sum / l.length

/-- Population variance of a list of pixel values. -/
def listVariance (l : List ℚ) : ℚ :=
  ((l.map fun x => (x - listMean l) ^ 2).sum) / l.length

/-- Per-image standardization: subtract the mean, divide by the standard
deviation (`Rat.sqrt` is exact on perfect squares, in particular at
variance 1, the only case the claims exercise). -/
def perImageStandardization (l : List ℚ) : List ℚ :=
  l.map fun x => (x - listMean l) / Rat.sqrt (listVariance l)

/-- Central crop of a flattened image: the identity when the crop shape
equals the image shape (the only case the claims exercise), otherwise a
truncation to the cropped element count. -/
def centralCrop (cropShape imageShape : List Nat) (img : List ℚ) : List ℚ :=
  if cropShape = imageShape then img else img.take cropShape.prod

/-- A raw dataset example: a flattened image with its shape, and a label. -/
structure RawExample where
  imageShape : List Nat
  image : List ℚ
  label : Int
deriving DecidableEq, Repr

/-- Modelled from the spec (§8 idempotence property): `build_image_map`
of `cifar100_prediction` (implementation not in the snapshot) crops the
image — a central crop when `distort` is false — standardizes it to zero
mean and unit variance, and returns the `(image, label)` pair, dropping no
information from the label.  The random crop and flip of the `distort = true`
path are outside this deterministic model and are embedded as the same
central crop; the claims only exercise `distort = false`. -/
def build_image_map (cropShape : List Nat) (_distort : Bool) (ex : RawExample) :
    List ℚ × Int :=
  (perImageStandardization (centralCrop cropShape ex.imageShape ex.image), ex.label)

/-! ## The server entrypoint (`src/tensorflow_federated/python/simulation/server.py`) -/

/-- gRPC server credentials (opaque: the snapshot only ever passes `None`). -/
inductive GrpcCredentials where
  | credentials
deriving DecidableEq, Repr

/-- gRPC server options (opaque: the snapshot only ever passes `None`). -/
inductive GrpcOptions where
  | options
deriving DecidableEq, Repr

/-- The configuration captured by
`python_executor_stacks.local_executor_factory(default_num_clients=...)`. -/
structure ExecutorFactoryConfig where
  defaultNumClients : Nat
deriving DecidableEq, Repr

/-- `local_executor_factory` as called from `server.py`: records the default
number of simulated clients. -/
def local_executor_factory (defaultNumClients : Nat) : ExecutorFactoryConfig :=
  ⟨defaultNumClients⟩

/-- The argument tuple of the `server_utils.run_server` call: factory,
`max_workers` thread count, port, credentials, options. -/
structure RunServerCall where
  factory : ExecutorFactoryConfig
  maxWorkers : Nat
  port : Nat
  credentials : Option GrpcCredentials
  options : Option GrpcOptions
deriving DecidableEq, Repr

/-- Embedding of `main` from `server.py`: ignores `argv` (the module defines
no flags) and starts the server with
`run_server(local_executor_factory(default_num_clients=3), 10, 30000, None,
None)`. -/
def main (_argv : List String) : RunServerCall :=
  let factory := local_executor_factory 3
  { factory := factory, maxWorkers := 10, port := 30000,
    credentials := none, options := none }

/-- Whether a gRPC channel is secure. -/
inductive ChannelSecurity where
  | insecure
  | secure
deriving DecidableEq, Repr

/-- Modelled from the spec (§6): `server_credentials=None` implies an
insecure channel. -/
def channelSecurityOf : Option GrpcCredentials → ChannelSecurity
  | none => .insecure
  | some _ => .secure

/-! ## Executor factory lifecycle (modelled from the spec) -/

/-- A placement name in a cardinality map. -/
inductive Placement where
  | clients
  | server
deriving DecidableEq, Repr

/-- A cardinality map: placement name to participant count. -/
abbrev CardMap := List (Placement × Nat)

/-- One cached executor: its cardinality-map key, its identity, and the
number of outstanding handles sharing it. -/
structure FactoryEntry where
  key : CardMap
  execId : Nat
  refCount : Nat
deriving DecidableEq, Repr

/-- Modelled from the spec (§4.1, §5): the executor factory's shared state —
a fresh-identity counter, the cache of live executors, and the log of
executor identities already torn down. -/
structure FactoryState where
  nextId : Nat
  cache : List FactoryEntry
  teardowns : List Nat
deriving DecidableEq, Repr

/-- Modelled from the spec (§4.1): the caching policy configuration option
`{reuse: share executor across calls, no_reuse: always build fresh}`. -/
inductive ReusePolicy where
  | reuse
  | noReuse
deriving DecidableEq, Repr

/-- The cached entry for a cardinality map, when one is live. -/
def findEntry (key : CardMap) (s : FactoryState) : Option FactoryEntry :=
  s.cache.find? fun e => decide (e.key = key)

/-- Modelled from the spec (§4.1): `create_executor` returns a handle (here
the executor identity) for the requested cardinality map.  Under the `reuse`
policy an identical subsequent request shares the cached executor and
increments its share count; otherwise a fresh executor is built with share
count 1. -/
def create_executor (policy : ReusePolicy) (key : CardMap) (s : FactoryState) :
    Nat × FactoryState :=
  match policy, findEntry key s with
  | .reuse, some e =>
      (e.execId,
        { s with
            cache := s.cache.map fun f =>
              if f.execId = e.execId then { f with refCount := f.refCount + 1 }
              else f })
  | _, _ =>
      (s.nextId,
        { nextId := s.nextId + 1,
          cache := { key := key, execId := s.nextId, refCount := 1 } :: s.cache,
          teardowns := s.teardowns })

/-- Modelled from the spec (§4.1): `release_executor` performs
reference-counted teardown — it decrements the share count and tears the
executor down (removing it from the cache and logging the teardown) only when
the count reaches zero.  Releasing an unknown or already-released handle is a
no-op (the spec leaves this case open; the claims do not exercise it). -/
def release_executor (h : Nat) (s : FactoryState) : FactoryState :=
  match s.cache.find? fun e => decide (e.execId = h) with
  | none => s
  | some e =>
      if e.refCount ≤ 1 then
        { s with
            cache := s.cache.filter fun f => decide (f.execId ≠ h),
            teardowns := h :: s.teardowns }
      else
        { s with
            cache := s.cache.map fun f =>
              if f.execId = h then { f with refCount := f.refCount - 1 } else f }

/-! ## Dataset element structure (modelled from the spec and test file) -/

/-- Tensor element dtypes occurring in the pipeline. -/
inductive DType where
  | uint8
  | int64
  | float32
deriving DecidableEq, Repr

/-- A tensor spec: dtype plus shape, `none` marking an unknown (batch)
dimension, as in `tf.TensorSpec(shape=(None, ...))`. -/
structure TensorSpec where
  dtype : DType
  shape : List (Option Nat)
deriving DecidableEq, Repr

/-- The element structure of the raw CIFAR-100 example dataset (the
`TEST_DATA` ordered dict of the test file): a scalar int64 `coarse_label`, a
32×32×3 uint8 `image`, and a scalar int64 `label`. -/
def inputElementSpec : List (String × TensorSpec) :=
  [("coarse_label", ⟨.int64, []⟩),
   ("image", ⟨.uint8, [some 32, some 32, some 3]⟩),
   ("label", ⟨.int64, []⟩)]

/-- Modelled from the spec: the image map selects the `image` and `label`
fields of an example — any other field, such as `coarse_label`, is dropped —
casts the image to float32, crops it to `cropShape`, and returns the
`(image, label)` pair. -/
def imageMapSpec (cropShape : List Nat) (fields : List (String × TensorSpec)) :
    Option (TensorSpec × TensorSpec) := do
  let _img ← fields.lookup "image"
  let lbl ← fields.lookup "label"
  pure (⟨DType.float32, cropShape.map some⟩, lbl)

/-- Batching prepends an unknown (batch) dimension to each component. -/
def batchSpec (p : TensorSpec × TensorSpec) : TensorSpec × TensorSpec :=
  (⟨p.1.dtype, none :: p.1.shape⟩, ⟨p.2.dtype, none :: p.2.shape⟩)

/-- Modelled from the spec: the element structure of the dataset produced by
the preprocessing function for a validated (length-3) crop shape — the image
map applied to the raw element structure, then batched. -/
def preprocessedElementSpec (cropShape : List Nat) :
    Option (TensorSpec × TensorSpec) :=
  if cropShape.length = 3 then (imageMapSpec cropShape inputElementSpec).map batchSpec
  else none

/-! ## Helper lemmas -/

lemma norm32_add_left (a b : Int) : norm32 (norm32 a + b) = norm32 (a + b) := by
  unfold norm32
  omega

lemma federatedSumJoin_eq_norm32_sum (l : List Int) (h : l ≠ []) :
    federatedSumJoin l = norm32 l.sum := by
  induction l with
  | nil => cases h rfl
  | cons a t ih =>
    cases t with
    | nil => simp [federatedSumJoin, add32, norm32]
    | cons b u =>
      have ht : (b :: u) ≠ [] := by simp
      have hrec := ih ht
      simp only [federatedSumJoin, List.foldr] at hrec ⊢
      rw [hrec, add32, Int.add_comm a, norm32_add_left, Int.add_comm]
      simp

lemma repeatList_length (n : Nat) (l : List α) :
    (repeatList n l).length = n * l.length := by
  simp [repeatList, List.length_flatten, List.map_replicate, List.sum_replicate,
    smul_eq_mul]

lemma ceilDiv_chunk (m bs : Nat) (hm : 0 < m) (hbs : 0 < bs) :
    ceilDiv m bs = 1 + ceilDiv (m - bs) bs := by
  unfold ceilDiv
  rcases le_or_lt bs m with h | h
  · have he : m + bs - 1 = (m - bs + bs - 1) + bs := by omega
    rw [he, Nat.add_div_right _ hbs]
    omega
  · have h0 : m - bs = 0 := by omega
    rw [h0]
    have h1 : (0 + bs - 1) / bs = 0 := Nat.div_eq_of_lt (by omega)
    have h2 : (m + bs - 1) / bs = 1 := by
      apply Nat.div_eq_of_lt_le <;> omega
    omega

lemma batchListAux_length (bs : Nat) (hbs : 0 < bs) :
    ∀ (fuel : Nat) (l : List α), l.length ≤ fuel →
      (batchListAux fuel bs l).length = ceilDiv l.length bs := by
  intro fuel
  induction fuel with
  | zero =>
    intro l hl
    have : l = [] := by
      cases l with
      | nil => rfl
      | cons x xs => simp at hl
    subst this
    simp [batchListAux, ceilDiv, Nat.div_eq_of_lt (by omega : bs - 1 < bs)]
  | succ f ih =>
    intro l hl
    cases l with
    | nil =>
      simp [batchListAux, ceilDiv, Nat.div_eq_of_lt (by omega : bs - 1 < bs)]
    | cons x xs =>
      rw [batchListAux, if_neg (by omega)]
      have hdrop : ((x :: xs).drop bs).length ≤ f := by
        simp only [List.length_drop, List.length_cons] at *
        omega
      rw [List.length_cons, ih _ hdrop, List.length_drop,
        ceilDiv_chunk (x :: xs).length bs (by simp) hbs]
      omega

lemma batchList_length (bs : Nat) (hbs : 0 < bs) (l : List α) :
    (batchList bs l).length = ceilDiv l.length bs :=
  batchListAux_length bs hbs l.length l le_rfl

lemma ceilDiv_eq_ceil (a b : Nat) (hb : 0 < b) :
    (ceilDiv a b : ℤ) = ⌈(a : ℚ) / (b : ℚ)⌉ := by
  have hbq : (0 : ℚ) < (b : ℚ) := by exact_mod_cast hb
  have hmod := Nat.div_add_mod (a + b - 1) b
  set q := (a + b - 1) / b with hq
  set r := (a + b - 1) % b with hr
  have hrlt : r < b := Nat.mod_lt _ hb
  have hlin : a + b = b * q + r + 1 := by
    revert hmod
    generalize b * q = t
    intro hmod
    omega
  have hlinq : (a : ℚ) + b = b * q + r + 1 := by exact_mod_cast hlin
  have hrq : (0 : ℚ) ≤ (r : ℚ) := by positivity
  have hrltq : (r : ℚ) < (b : ℚ) := by exact_mod_cast hrlt
  have hcd : ceilDiv a b = q := rfl
  have hr1 : (r : ℚ) + 1 ≤ (b : ℚ) := by exact_mod_cast hrlt
  have hcomm : (b : ℚ) * (q : ℚ) = (q : ℚ) * (b : ℚ) := mul_comm _ _
  rw [hcd, eq_comm, Int.ceil_eq_iff]
  push_cast
  constructor
  · rw [lt_div_iff₀ hbq]
    nlinarith [hlinq, hrq, hcomm]
  · rw [div_le_iff₀ hbq]
    nlinarith [hlinq, hr1, hcomm]

/-! ## Claim theorems -/

/-- C1: Calling `fed_sum` (the federated computation summing an int32 value
placed at clients) on the empty list of client values returns 0, the additive
identity, and does not fail. -/
theorem C1_fed_sum_empty_returns_zero : fed_sum [] = Except.ok 0 := rfl

/-- C7: For every non-all-equal federated value at placement "clients" with
declared cardinality `n`, execution succeeds exactly when the payload list has
length `n`; any length mismatch fails with a `CardinalityMismatchError` that
names both the expected and the actual counts. -/
theorem C7_cardinality_exact (n : Nat) (payload : List Int) :
    ((∃ leaves, resolveClientsPlacement n ⟨false, payload⟩ = Except.ok leaves) ↔
      payload.length = n) ∧
    (payload.length ≠ n →
      resolveClientsPlacement n ⟨false, payload⟩ =
        Except.error (ExecError.cardinalityMismatch n payload.length)) := by
  unfold resolveClientsPlacement
  by_cases h : payload.length = n <;> simp [h]

/-- Witness for C7 at cardinality 3 and a 2-element payload: the error names
the expected count 3 and the actual count 2. -/
theorem C7_witness :
    resolveClientsPlacement 3 ⟨false, [1, 2]⟩ =
      Except.error (ExecError.cardinalityMismatch 3 2) :=
  (C7_cardinality_exact 3 [1, 2]).2 (by decide)

/-- C8: federated sum joins the per-leaf int32 results order-invariantly —
any two join orders (permutations of the leaf results) give the same result —
and the empty join returns the additive identity 0. -/
theorem C8_join_order_invariant (l₁ l₂ : List Int) (h : l₁.Perm l₂) :
    federatedSumJoin l₁ = federatedSumJoin l₂ ∧
      federatedSumJoin ([] : List Int) = 0 := by
  refine ⟨?_, rfl⟩
  rcases eq_or_ne l₁ ([] : List Int) with h1 | h1
  · subst h1
    rw [h.symm.eq_nil]
  · have h2 : l₂ ≠ [] := fun he => h1 (by rw [he] at h; exact h.eq_nil)
    rw [federatedSumJoin_eq_norm32_sum l₁ h1,
      federatedSumJoin_eq_norm32_sum l₂ h2, h.sum_eq]

/-- Witness for C8 at the join orders `[1, 2, 3]` and `[3, 1, 2]`. -/
theorem C8_witness :
    federatedSumJoin [1, 2, 3] = federatedSumJoin [3, 1, 2] ∧
      federatedSumJoin ([] : List Int) = 0 :=
  C8_join_order_invariant [1, 2, 3] [3, 1, 2] (by decide)

/-- C2 (amended): for positive `num_epochs` and `batch_size` and a valid
crop shape, the returned preprocessing function maps a dataset of `k`
examples to `ceil(k * num_epochs / batch_size)` batches; for a one-example
dataset — the dataset of the cited test — that is `ceil(num_epochs /
batch_size)`. -/
theorem C2_batch_count (ne : Int) (bs bufsz : Nat) (dims : List Nat)
    (ds : List Int) (hne : 0 < ne) (hbs : 0 < bs) (hdims : dims.length = 3) :
    ∃ p, create_preprocess_fn ne bs bufsz (CropShapeArg.iterable dims) false =
        Except.ok p ∧
      (applyPreprocess p ds).length = ceilDiv (ne.toNat * ds.length) bs ∧
      (ds.length = 1 →
        ((applyPreprocess p ds).length : ℤ) = ⌈(ne : ℚ) / (bs : ℚ)⌉) := by
  refine ⟨⟨ne.toNat, bs, bufsz, dims, false⟩, ?_, ?_, ?_⟩
  · simp only [create_preprocess_fn, validateCropShape]
    rw [if_neg (by omega : ¬ ne < 1), if_pos hdims]
  · unfold applyPreprocess
    rw [batchList_length bs hbs, repeatList_length]
  · intro h1
    unfold applyPreprocess
    rw [batchList_length bs hbs, repeatList_length, h1, Nat.mul_one,
      ceilDiv_eq_ceil _ bs hbs]
    have hc : ((ne.toNat : ℚ)) = (ne : ℚ) := by
      exact_mod_cast Int.toNat_of_nonneg (le_of_lt hne)
    rw [hc]

/-- Witness for C2 at `num_epochs = 7`, `batch_size = 2` and the one-example
dataset `[5]`: 4 batches, the ceiling of 7/2. -/
theorem C2_witness :
    ∃ p, create_preprocess_fn 7 2 1 (CropShapeArg.iterable [32, 32, 3]) false =
        Except.ok p ∧
      (applyPreprocess p [(5 : Int)]).length =
        ceilDiv ((7 : Int).toNat * [(5 : Int)].length) 2 ∧
      ([(5 : Int)].length = 1 →
        ((applyPreprocess p [(5 : Int)]).length : ℤ) = ⌈(7 : ℚ) / (2 : ℚ)⌉) :=
  C2_batch_count 7 2 1 [32, 32, 3] [5] (by decide) (by decide) (by decide)

/-- C2 counterexample: as stated over every dataset the claim fails — on a
two-example dataset with `num_epochs = 1` and `batch_size = 1` the
preprocessed dataset has 2 batches, not `ceil(num_epochs / batch_size) = 1`. -/
theorem C2_counterexample :
    (create_preprocess_fn 1 1 1 (CropShapeArg.iterable [32, 32, 3]) false).map
        (fun p => (applyPreprocess p [(0 : Int), 1]).length) = Except.ok 2 ∧
      (ceilDiv 1 1 : ℤ) = ⌈(1 : ℚ) / (1 : ℚ)⌉ ∧ (2 : Nat) ≠ ceilDiv 1 1 := by
  refine ⟨rfl, ?_, by decide⟩
  have h := ceilDiv_eq_ceil 1 1 Nat.one_pos
  simpa using h

/-- C3: for every non-positive `num_epochs`, `create_preprocess_fn` fails at
construction time — before any dataset resource is built — with a value error
whose message mentions "positive integer". -/
theorem C3_nonpositive_epochs_value_error (ne : Int) (bs bufsz : Nat)
    (cs : CropShapeArg) (d : Bool) (h : ne ≤ 0) :
    create_preprocess_fn ne bs bufsz cs d =
        Except.error (ConfigError.valueError numEpochsErrorMsg) ∧
      mentions numEpochsErrorMsg "positive integer" := by
  refine ⟨?_, by decide⟩
  unfold create_preprocess_fn
  rw [if_pos (by omega : ne < 1)]

/-- Witness for C3 at `num_epochs = -2` (the cited test's input). -/
theorem C3_witness :
    create_preprocess_fn (-2) 1 1 (CropShapeArg.iterable [32, 32, 3]) false =
        Except.error (ConfigError.valueError numEpochsErrorMsg) ∧
      mentions numEpochsErrorMsg "positive integer" :=
  C3_nonpositive_epochs_value_error (-2) 1 1 (CropShapeArg.iterable [32, 32, 3])
    false (by decide)

/-- C4: a `crop_shape` argument that is not an iterable of exactly 3 elements
makes `create_preprocess_fn` fail at construction time: a type error
mentioning "crop_shape must be an iterable" when the argument is not
iterable, and a value error mentioning "The crop_shape must have length 3"
when it is an iterable of the wrong length. -/
theorem C4_crop_shape_errors (ne : Int) (bs bufsz : Nat) (d : Bool)
    (hne : 0 < ne) :
    (∀ n : Int,
      create_preprocess_fn ne bs bufsz (CropShapeArg.scalar n) d =
          Except.error (ConfigError.typeError cropTypeErrorMsg) ∧
        mentions cropTypeErrorMsg "crop_shape must be an iterable") ∧
    (∀ dims : List Nat, dims.length ≠ 3 →
      create_preprocess_fn ne bs bufsz (CropShapeArg.iterable dims) d =
          Except.error (ConfigError.valueError cropLengthErrorMsg) ∧
        mentions cropLengthErrorMsg "The crop_shape must have length 3") := by
  constructor
  · intro n
    refine ⟨?_, by decide⟩
    unfold create_preprocess_fn validateCropShape
    rw [if_neg (by omega : ¬ ne < 1)]
  · intro dims hdims
    refine ⟨?_, by decide⟩
    simp only [create_preprocess_fn, validateCropShape]
    rw [if_neg (by omega : ¬ ne < 1), if_neg hdims]

/-- Witness for C4 at the cited tests' inputs: the non-iterable crop shape
`32` and the length-2 iterable `(32, 32)`. -/
theorem C4_witness :
    (create_preprocess_fn 1 1 1 (CropShapeArg.scalar 32) false =
        Except.error (ConfigError.typeError cropTypeErrorMsg) ∧
      mentions cropTypeErrorMsg "crop_shape must be an iterable") ∧
    (create_preprocess_fn 1 1 1 (CropShapeArg.iterable [32, 32]) false =
        Except.error (ConfigError.valueError cropLengthErrorMsg) ∧
      mentions cropLengthErrorMsg "The crop_shape must have length 3") := by
  have h := C4_crop_shape_errors 1 1 1 false (by decide)
  exact ⟨h.1 32, h.2 [32, 32] (by decide)⟩

/-- C5: `build_image_map` with `distort = false` and a crop shape equal to
the image's shape returns a zero-mean, unit-variance image unchanged (exactly,
in the rational idealisation of the float arithmetic) and returns the label
unchanged. -/
theorem C5_standardized_image_no_op (ex : RawExample)
    (hm : listMean ex.image = 0) (hv : listVariance ex.image = 1) :
    build_image_map ex.imageShape false ex = (ex.image, ex.label) := by
  unfold build_image_map centralCrop
  rw [if_pos rfl]
  unfold perImageStandardization
  rw [hm, hv]
  have hs : Rat.sqrt 1 = 1 := by decide
  rw [hs]
  simp

/-- Witness for C5 at the normalized two-channel image `[1, -1]` (mean 0,
variance 1) with label 0. -/
theorem C5_witness :
    build_image_map [1, 1, 2] false ⟨[1, 1, 2], [1, -1], 0⟩ = ([1, -1], 0) :=
  C5_standardized_image_no_op ⟨[1, 1, 2], [1, -1], 0⟩
    (by norm_num [listMean]) (by norm_num [listVariance, listMean])

/-- C6: the server process entrypoint `main` always starts the server with
the fixed configuration — an executor factory with `default_num_clients = 3`,
10 threads, port 30000, and no credentials (an insecure channel) — for every
argument vector, since the module defines no flags. -/
theorem C6_fixed_server_config (argv : List String) :
    main argv = ⟨local_executor_factory 3, 10, 30000, none, none⟩ ∧
    channelSecurityOf (main argv).credentials = ChannelSecurity.insecure :=
  ⟨rfl, rfl⟩

/-- C9: under the `reuse` policy, two `create_executor` calls with the
identical cardinality map `{clients: 3}` return handles backed by the same
underlying executor; releasing one handle does not tear the executor down
while the other is held, and releasing both tears it down exactly once. -/
theorem C9_refcount_scenario :
    (create_executor ReusePolicy.reuse [(Placement.clients, 3)]
        ⟨0, [], []⟩).1 =
      (create_executor ReusePolicy.reuse [(Placement.clients, 3)]
        (create_executor ReusePolicy.reuse [(Placement.clients, 3)]
          ⟨0, [], []⟩).2).1 ∧
    (release_executor
        (create_executor ReusePolicy.reuse [(Placement.clients, 3)]
          ⟨0, [], []⟩).1
        (create_executor ReusePolicy.reuse [(Placement.clients, 3)]
          (create_executor ReusePolicy.reuse [(Placement.clients, 3)]
            ⟨0, [], []⟩).2).2).teardowns = [] ∧
    findEntry [(Placement.clients, 3)]
        (release_executor
          (create_executor ReusePolicy.reuse [(Placement.clients, 3)]
            ⟨0, [], []⟩).1
          (create_executor ReusePolicy.reuse [(Placement.clients, 3)]
            (create_executor ReusePolicy.reuse [(Placement.clients, 3)]
              ⟨0, [], []⟩).2).2) ≠ none ∧
    (release_executor
        (create_executor ReusePolicy.reuse [(Placement.clients, 3)]
          (create_executor ReusePolicy.reuse [(Placement.clients, 3)]
            ⟨0, [], []⟩).2).1
        (release_executor
          (create_executor ReusePolicy.reuse [(Placement.clients, 3)]
            ⟨0, [], []⟩).1
          (create_executor ReusePolicy.reuse [(Placement.clients, 3)]
            (create_executor ReusePolicy.reuse [(Placement.clients, 3)]
              ⟨0, [], []⟩).2).2)).teardowns =
      [(create_executor ReusePolicy.reuse [(Placement.clients, 3)]
        ⟨0, [], []⟩).1] ∧
    findEntry [(Placement.clients, 3)]
        (release_executor
          (create_executor ReusePolicy.reuse [(Placement.clients, 3)]
            (create_executor ReusePolicy.reuse [(Placement.clients, 3)]
              ⟨0, [], []⟩).2).1
          (release_executor
            (create_executor ReusePolicy.reuse [(Placement.clients, 3)]
              ⟨0, [], []⟩).1
            (create_executor ReusePolicy.reuse [(Placement.clients, 3)]
              (create_executor ReusePolicy.reuse [(Placement.clients, 3)]
                ⟨0, [], []⟩).2).2)) = none := by
  decide

/-- C10: for a valid length-3 crop shape, the preprocessed dataset's element
structure is the pair of a float32 image tensor of shape `(batch,) +
crop_shape` and an int64 label tensor of shape `(batch,)`; the `coarse_label`
field of the input examples does not contribute to the output (filtering it
out of the input structure leaves the output unchanged). -/
theorem C10_element_structure (cs : List Nat) (h : cs.length = 3) :
    preprocessedElementSpec cs =
        some (⟨DType.float32, none :: cs.map some⟩, ⟨DType.int64, [none]⟩) ∧
      imageMapSpec cs
          (inputElementSpec.filter fun f => decide (f.1 ≠ "coarse_label")) =
        imageMapSpec cs inputElementSpec := by
  constructor
  · unfold preprocessedElementSpec
    rw [if_pos h]
    rfl
  · rfl

/-- Witness for C10 at the crop shape `[32, 32, 3]`. -/
theorem C10_witness :
    preprocessedElementSpec [32, 32, 3] =
        some (⟨DType.float32, none :: [32, 32, 3].map some⟩,
          ⟨DType.int64, [none]⟩) ∧
      imageMapSpec [32, 32, 3]
          (inputElementSpec.filter fun f => decide (f.1 ≠ "coarse_label")) =
        imageMapSpec [32, 32, 3] inputElementSpec :=
  C10_element_structure [32, 32, 3] rfl

end Federated
